import Mathlib

/-!
Shallow embedding of `src/api_client.py` and `src/github_client.py` of the
dev.to audience-analyzer repository, together with proofs settling the
frozen claims about its specification.

Modelling conventions:
* A network interaction is driven by a scripted list (or, across retry
  attempts, a function `Nat → ...`) of transport events.  Each
  `TransportEvent` is either a received HTTP response (status code, body
  text for logging, decoded JSON body) or a transport-layer exception
  raised by `requests.get` (DNS failure, connection refused, timeout).
* A routine that loops forever requesting more responses than scripted
  returns `none`; `some` carries the Python-level outcome.
* Python exceptions that can escape a routine are modelled with `Except`:
  `RequestException` covers the `requests` exception hierarchy (both
  transport errors and `HTTPError` raised by `raise_for_status`), and
  `PyError` additionally covers the `AttributeError` the scraper can raise.
* Machine integers do not overflow here (Python ints are unbounded), so
  counts are `Nat`/`Int` directly.
-/

/-- The `requests.exceptions.RequestException` hierarchy: transport-layer
failures (`ConnectionError`, `Timeout`, ...) and `HTTPError` as raised by
`response.raise_for_status()` on a 4xx/5xx status. -/
inductive RequestException : Type where
  | transport (msg : String)
  | httpError (status : Nat)
deriving DecidableEq, Repr

/-- Python exceptions relevant to these modules: the `requests` exception
hierarchy, plus the `AttributeError` raised in `get_user_stats` when
`find`/`re.search` return `None` and an attribute is taken on them. -/
inductive PyError : Type where
  | requestException (e : RequestException)
  | attributeError
deriving DecidableEq, Repr

/-- The `backoff.on_exception(..., requests.exceptions.RequestException, ...)`
decorator catches exactly the `RequestException` class; any other exception
propagates immediately. -/
def retryableErr : PyError → Bool
  | .requestException _ => true
  | .attributeError => false

/-- One event observed by a single `requests.get` call: either a received
response (status code, raw body text used in log messages, decoded body of
type `β`) or a transport-layer exception. -/
inductive TransportEvent (β : Type) : Type where
  | resp (status : Nat) (text : String) (body : β)
  | exn (msg : String)
deriving DecidableEq, Repr

/-- Modelled from the spec: the third-party `backoff` library (not part of
this repository's sources) as used by the `@backoff.on_exception(backoff.expo,
RequestException, max_tries=5)` decorators.  `fuel` is the number of retries
still allowed after the current attempt and `i` the index of the current
attempt.  An attempt either diverges (`none`, propagated), succeeds, or
raises; a raised exception of the retried class is retried while retries
remain, any other exception (and the last attempt's exception) propagates.
The result carries the number of attempts that were made.  The exponential
backoff sleeps do not affect values and are not modelled. -/
def backoffGo {A : Type} (f : Nat → Option (Except PyError A)) :
    Nat → Nat → Option (Except PyError A × Nat)
  | 0, i => (f i).map (fun r => (r, i + 1))
  | fuel + 1, i =>
    match f i with
    | none => none
    | some (Except.ok a) => some (Except.ok a, i + 1)
    | some (Except.error e) =>
      if retryableErr e then backoffGo f fuel (i + 1)
      else some (Except.error e, i + 1)

/-- Modelled from the spec: `backoff.on_exception` with `max_tries` total
attempts (so `max_tries - 1` retries after the first attempt). -/
def backoff_on_exception {A : Type} (max_tries : Nat)
    (f : Nat → Option (Except PyError A)) : Option (Except PyError A × Nat) :=
  backoffGo f (max_tries - 1) 0

/-- One item of the authenticated `/articles/me` JSON array, restricted to
the keys `load_articles_to_dataframe` reads. -/
structure MyArticle : Type where
  title : String
  published_at : String
  public_reactions_count : Int
deriving DecidableEq, Repr

/-- One row of the DataFrame built by `load_articles_to_dataframe`. -/
structure ArticleRow : Type where
  title : String
  created_at : String
  public_reactions_count : Int
deriving DecidableEq, Repr

/-- The dict comprehension in `load_articles_to_dataframe` (api_client.py
lines 42-49). -/
def articleToRow (a : MyArticle) : ArticleRow :=
  { title := a.title
    created_at := a.published_at
    public_reactions_count := a.public_reactions_count }

/-- The `while True` pagination loop of `load_articles_to_dataframe`
(api_client.py lines 30-50), one scripted event per issued request.  The
second component of a normal result is the list of log lines printed.  A
transport exception escapes the function body (to the backoff decorator). -/
def articlesLoop :
    List (TransportEvent (List MyArticle)) → List ArticleRow →
    Option (Except PyError (List ArticleRow × List String))
  | [], _ => none
  | TransportEvent.exn m :: _, _ =>
    some (Except.error (PyError.requestException (RequestException.transport m)))
  | TransportEvent.resp status text body :: rest, acc =>
    if status ≠ 200 then
      some (Except.ok
        (acc, ["Failed to load articles: " ++ toString status ++ " - " ++ text]))
    else if body = [] then
      some (Except.ok (acc, []))
    else
      articlesLoop rest (acc ++ body.map articleToRow)

/-- `load_articles_to_dataframe` (api_client.py lines 18-52), as a function
of the scripted transport events, before the backoff decorator is applied. -/
def load_articles_to_dataframe (events : List (TransportEvent (List MyArticle))) :
    Option (Except PyError (List ArticleRow × List String)) :=
  articlesLoop events []

/-- One item of the `/followers/users` JSON array; `load_followers_to_dataframe`
stores the items unchanged, and the enrichment routines later read the
`username` field.  `name` stands for the remaining profile fields. -/
structure FollowerRow : Type where
  username : String
  name : String
deriving DecidableEq, Repr

/-- The `while True` pagination loop of `load_followers_to_dataframe`
(api_client.py lines 67-82); items are appended unchanged. -/
def followersLoop :
    List (TransportEvent (List FollowerRow)) → List FollowerRow →
    Option (Except PyError (List FollowerRow × List String))
  | [], _ => none
  | TransportEvent.exn m :: _, _ =>
    some (Except.error (PyError.requestException (RequestException.transport m)))
  | TransportEvent.resp status text body :: rest, acc =>
    if status ≠ 200 then
      some (Except.ok
        (acc, ["Failed to load followers: " ++ toString status ++ " - " ++ text]))
    else if body = [] then
      some (Except.ok (acc, []))
    else
      followersLoop rest (acc ++ body)

/-- `load_followers_to_dataframe` (api_client.py lines 55-84), as a function
of the scripted transport events, before the backoff decorator is applied. -/
def load_followers_to_dataframe (events : List (TransportEvent (List FollowerRow))) :
    Option (Except PyError (List FollowerRow × List String)) :=
  followersLoop events []

/-- `load_articles_to_dataframe` together with its
`@backoff.on_exception(..., max_tries=5)` decorator (api_client.py line 18);
`oracle i` scripts the transport events seen by attempt `i`. -/
def load_articles_wrapped
    (oracle : Nat → List (TransportEvent (List MyArticle))) :
    Option (Except PyError (List ArticleRow × List String) × Nat) :=
  backoff_on_exception 5 (fun i => load_articles_to_dataframe (oracle i))

/-- `load_followers_to_dataframe` together with its backoff decorator
(api_client.py line 55). -/
def load_followers_wrapped
    (oracle : Nat → List (TransportEvent (List FollowerRow))) :
    Option (Except PyError (List FollowerRow × List String) × Nat) :=
  backoff_on_exception 5 (fun i => load_followers_to_dataframe (oracle i))

/-- The `/users/by_username` JSON payload, restricted to the keys
`get_user_details` reads via `data.get(...)` (absent key gives `none`),
plus a stand-in `username` key for the further payload keys it ignores. -/
structure UserJson : Type where
  name : Option String
  twitter_username : Option String
  github_username : Option String
  summary : Option String
  location : Option String
  website_url : Option String
  joined_at : Option String
  profile_image : Option String
  username : Option String
deriving DecidableEq, Repr

/-- The normalized dict built by `get_user_details` on HTTP 200
(api_client.py lines 108-117). -/
structure UserDetails : Type where
  name : Option String
  twitter_username : Option String
  github_username : Option String
  summary : Option String
  location : Option String
  website_url : Option String
  joined_at : Option String
  profile_image : Option String
deriving DecidableEq, Repr

/-- The field extraction on the 200 branch of `get_user_details`. -/
def normalizeUser (d : UserJson) : UserDetails :=
  { name := d.name
    twitter_username := d.twitter_username
    github_username := d.github_username
    summary := d.summary
    location := d.location
    website_url := d.website_url
    joined_at := d.joined_at
    profile_image := d.profile_image }

/-- `get_user_details` (api_client.py lines 90-125), before the backoff
decorator: the `while True` loop issues one request per scripted event; 200
returns the normalized dict, 429 sleeps 1 second and retries, any other
status logs and returns the empty dict (modelled `none`).  The second
component collects the durations of the sleeps performed, in order. -/
def get_user_details (username : String) :
    List (TransportEvent UserJson) →
    Option (Except PyError (Option UserDetails) × List Nat)
  | [] => none
  | TransportEvent.exn m :: _ =>
    some (Except.error (PyError.requestException (RequestException.transport m)), [])
  | TransportEvent.resp status _ data :: rest =>
    if status = 200 then
      some (Except.ok (some (normalizeUser data)), [])
    else if status = 429 then
      (get_user_details username rest).map (fun r => (r.1, 1 :: r.2))
    else
      some (Except.ok none, [])

/-- One item of the `/articles?username=...` JSON array, restricted to the
keys `get_user_articles_summary` reads (each read with `article.get`, and
`tag_list` with default `[]`). -/
structure ArticleJson : Type where
  title : String
  tag_list : List String
  reading_time_minutes : Int
  comments_count : Int
  positive_reactions_count : Int
  published_at : String
deriving DecidableEq, Repr

/-- The result dict of `get_user_articles_summary` (api_client.py lines
224-233).  `unique_tags` is a Python `set`, so it is modelled as a
`Finset`; the `list(unique_tags)` conversion has unspecified order. -/
structure ArticleSummary : Type where
  article_count : Nat
  article_titles : List String
  unique_tags : Finset String
  tags : List (List String)
  article_reading_time_minutes : List Int
  article_comments_counts : List Int
  article_positive_reactions_counts : List Int
  article_published_at : List String
deriving DecidableEq

/-- The mutable accumulators of `get_user_articles_summary`'s loop
(api_client.py lines 177-183). -/
structure SummaryAcc : Type where
  article_titles : List String
  unique_tags : Finset String
  tags : List (List String)
  article_reading_time_minutes : List Int
  article_comments_counts : List Int
  article_positive_reactions_counts : List Int
  article_published_at : List String
deriving DecidableEq

/-- The initial (all-empty) accumulators. -/
def emptyAcc : SummaryAcc :=
  { article_titles := []
    unique_tags := ∅
    tags := []
    article_reading_time_minutes := []
    article_comments_counts := []
    article_positive_reactions_counts := []
    article_published_at := [] }

/-- The body of `for article in articles` (api_client.py lines 194-204):
append each field of one article to the corresponding accumulator. -/
def pushArticle (acc : SummaryAcc) (a : ArticleJson) : SummaryAcc :=
  { article_titles := acc.article_titles ++ [a.title]
    unique_tags := acc.unique_tags ∪ a.tag_list.toFinset
    tags := acc.tags ++ [a.tag_list]
    article_reading_time_minutes :=
      acc.article_reading_time_minutes ++ [a.reading_time_minutes]
    article_comments_counts := acc.article_comments_counts ++ [a.comments_count]
    article_positive_reactions_counts :=
      acc.article_positive_reactions_counts ++ [a.positive_reactions_count]
    article_published_at := acc.article_published_at ++ [a.published_at] }

/-- Processing one whole 200 page of articles. -/
def pushPage (acc : SummaryAcc) (page : List ArticleJson) : SummaryAcc :=
  page.foldl pushArticle acc

/-- The dict returned on the `break` path (api_client.py lines 224-233):
`article_count` is `len(article_titles)`. -/
def finishSummary (acc : SummaryAcc) : ArticleSummary :=
  { article_count := acc.article_titles.length
    article_titles := acc.article_titles
    unique_tags := acc.unique_tags
    tags := acc.tags
    article_reading_time_minutes := acc.article_reading_time_minutes
    article_comments_counts := acc.article_comments_counts
    article_positive_reactions_counts := acc.article_positive_reactions_counts
    article_published_at := acc.article_published_at }

/-- The all-empty dict returned on a non-200, non-429 status (api_client.py
lines 213-222). -/
def emptySummary : ArticleSummary :=
  { article_count := 0
    article_titles := []
    unique_tags := ∅
    tags := []
    article_reading_time_minutes := []
    article_comments_counts := []
    article_positive_reactions_counts := []
    article_published_at := [] }

/-- The `while True` loop of `get_user_articles_summary` (api_client.py
lines 186-222): 200 with a non-empty page accumulates and continues, 200
with an empty page breaks and returns the built dict, 429 sleeps 1 second
and retries, any other status returns the all-empty dict.  The second
component records the sleep durations performed. -/
def summaryLoop :
    List (TransportEvent (List ArticleJson)) → SummaryAcc →
    Option (Except PyError ArticleSummary × List Nat)
  | [], _ => none
  | TransportEvent.exn m :: _, _ =>
    some (Except.error (PyError.requestException (RequestException.transport m)), [])
  | TransportEvent.resp status _ body :: rest, acc =>
    if status = 200 then
      if body = [] then some (Except.ok (finishSummary acc), [])
      else summaryLoop rest (pushPage acc body)
    else if status = 429 then
      (summaryLoop rest acc).map (fun r => (r.1, 1 :: r.2))
    else
      some (Except.ok emptySummary, [])

/-- `get_user_articles_summary` (api_client.py lines 156-233), before the
backoff decorator, as a function of the username and of the scripted
transport events. -/
def get_user_articles_summary (username : String)
    (events : List (TransportEvent (List ArticleJson))) :
    Option (Except PyError ArticleSummary × List Nat) :=
  summaryLoop events emptyAcc

/-- Deduplicated union of a list of tag lists, in accumulation order
(matching `unique_tags.update(...)` per article). -/
def tagsUnion (l : List (List String)) : Finset String :=
  l.foldl (fun s t => s ∪ t.toFinset) ∅

/-- The summary dict determined by a list of articles: every per-article
list is the corresponding field map over the articles, in order, and
`unique_tags` is the union of their tag lists. -/
def summaryOfArticles (arts : List ArticleJson) : ArticleSummary :=
  { article_count := arts.length
    article_titles := arts.map (fun a => a.title)
    unique_tags := tagsUnion (arts.map (fun a => a.tag_list))
    tags := arts.map (fun a => a.tag_list)
    article_reading_time_minutes := arts.map (fun a => a.reading_time_minutes)
    article_comments_counts := arts.map (fun a => a.comments_count)
    article_positive_reactions_counts :=
      arts.map (fun a => a.positive_reactions_count)
    article_published_at := arts.map (fun a => a.published_at) }

/-- The accumulator state after having processed exactly `arts`. -/
def accOfArts (arts : List ArticleJson) : SummaryAcc :=
  { article_titles := arts.map (fun a => a.title)
    unique_tags := tagsUnion (arts.map (fun a => a.tag_list))
    tags := arts.map (fun a => a.tag_list)
    article_reading_time_minutes := arts.map (fun a => a.reading_time_minutes)
    article_comments_counts := arts.map (fun a => a.comments_count)
    article_positive_reactions_counts :=
      arts.map (fun a => a.positive_reactions_count)
    article_published_at := arts.map (fun a => a.published_at) }

/-- One `div.badge_text_content` element of the profile page, as seen by
`get_user_stats`: the first matching `h4` title and `p.description`
sub-elements, `none` when the sub-element is absent (in which case the
Python code raises `AttributeError` on `.text`). -/
structure BadgeElem : Type where
  title : Option String
  description : Option String
deriving DecidableEq, Repr

/-- The profile page markup, pre-parsed to exactly what `get_user_stats`
extracts with BeautifulSoup: the badge elements, the stripped texts of the
`div.flex.items-center.mb-4` elements, and the stripped texts of the
`div.flex.items-center` elements.  The HTML-to-elements parsing itself is
the BeautifulSoup library boundary and is not re-modelled. -/
structure ProfilePage : Type where
  badge_elements : List BadgeElem
  comments_divs : List String
  tags_divs : List String
deriving DecidableEq, Repr

/-- The tuple returned by `get_user_stats`. -/
structure UserStats : Type where
  badges : List String
  badge_descriptions : List String
  comment_count : Nat
  tags_count : Nat
deriving DecidableEq, Repr

/-- First maximal run of digit characters, if any (the `re.search(r"\d+", ...)`
match). -/
def firstDigitsAux : List Char → Option (List Char)
  | [] => none
  | c :: rest =>
    if c.isDigit then some (c :: rest.takeWhile Char.isDigit)
    else firstDigitsAux rest

/-- `int(re.search(r"\d+", s).group())`, `none` when there is no digit (in
which case the Python code raises `AttributeError` on `.group()`). -/
def firstNumber (s : String) : Option Nat :=
  (firstDigitsAux s.toList).map
    (fun ds => ds.foldl (fun n c => n * 10 + (c.toNat - 48)) 0)

/-- Substring containment test (`"phrase" in text`). -/
def containsSub (text pat : String) : Bool :=
  decide (List.IsInfix pat.toList text.toList)

/-- The badge loop of `get_user_stats` (api_client.py lines 327-331): pull
`.text.strip()` of the first `h4` title and first `p.description` of each
badge element; a missing sub-element raises `AttributeError`. -/
def scrapeBadges : List BadgeElem → Except PyError (List String × List String)
  | [] => Except.ok ([], [])
  | b :: rest =>
    match b.title, b.description with
    | some t, some d =>
      (scrapeBadges rest).map (fun p => (t.trim :: p.1, d.trim :: p.2))
    | _, _ => Except.error PyError.attributeError

/-- The counter loops of `get_user_stats` (api_client.py lines 334-344):
scan the div texts in order, overwriting the count with the digits of every
text containing the phrase (last match wins); a matching text with no digit
raises `AttributeError`. -/
def countLoop (phrase : String) : List String → Nat → Except PyError Nat
  | [], acc => Except.ok acc
  | d :: rest, acc =>
    if containsSub d phrase then
      match firstNumber d with
      | some n => countLoop phrase rest n
      | none => Except.error PyError.attributeError
    else countLoop phrase rest acc

/-- `get_user_stats` (api_client.py lines 299-346), before the backoff
decorator: one request per call; a transport exception propagates;
`raise_for_status()` raises `HTTPError` on a 4xx/5xx status; otherwise the
page is scraped.  (The `if response is None` check on line 317 is dead code:
`requests.get` never returns `None`.) -/
def get_user_stats (ev : TransportEvent ProfilePage) : Except PyError UserStats :=
  match ev with
  | TransportEvent.exn m =>
    Except.error (PyError.requestException (RequestException.transport m))
  | TransportEvent.resp status _ page =>
    if 400 ≤ status ∧ status < 600 then
      Except.error (PyError.requestException (RequestException.httpError status))
    else
      match scrapeBadges page.badge_elements with
      | Except.error e => Except.error e
      | Except.ok p =>
        match countLoop "comments written" page.comments_divs 0 with
        | Except.error e => Except.error e
        | Except.ok cc =>
          match countLoop "tags followed" page.tags_divs 0 with
          | Except.error e => Except.error e
          | Except.ok tc => Except.ok ⟨p.1, p.2, cc, tc⟩

/-- `get_user_stats` together with its backoff decorator (api_client.py
line 298); `oracle i` is the transport event seen by attempt `i`, so the
number of attempts made equals the number of issued requests. -/
def get_user_stats_wrapped (oracle : Nat → TransportEvent ProfilePage) :
    Option (Except PyError UserStats × Nat) :=
  backoff_on_exception 5 (fun i => some (get_user_stats (oracle i)))

/-- A value stored in an added DataFrame column. -/
inductive Cell : Type where
  | n (v : Nat)
  | i (v : Int)
  | s (v : String)
  | ls (v : List String)
  | lls (v : List (List String))
  | li (v : List Int)
  | fs (v : Finset String)
  | null
deriving DecidableEq

/-- Lookup of a named column in an ordered column list (`df["name"]`). -/
def getColA : List (String × List Cell) → String → Option (List Cell)
  | [], _ => none
  | (n, v) :: rest, m => if n = m then some v else getColA rest m

/-- Column assignment in an ordered column list (`df["name"] = values`):
replace the existing column of that name, else append a new one. -/
def setColA : List (String × List Cell) → String → List Cell →
    List (String × List Cell)
  | [], m, v => [(m, v)]
  | (n, w) :: rest, m, v =>
    if n = m then (m, v) :: rest else (n, w) :: setColA rest m v

/-- A followers DataFrame: the base rows produced by
`load_followers_to_dataframe` plus the columns added by the enrichment
routines, each aligned by position with the rows. -/
structure Df : Type where
  rows : List FollowerRow
  extra : List (String × List Cell)
deriving DecidableEq

/-- `df["name"]` for an added column. -/
def Df.getCol (df : Df) (name : String) : Option (List Cell) :=
  getColA df.extra name

/-- `df["name"] = values` for an added column. -/
def Df.setCol (df : Df) (name : String) (vals : List Cell) : Df :=
  { df with extra := setColA df.extra name vals }

/-- `update_followers_with_articles` (api_client.py lines 236-295),
abstracted over the per-username result of `get_user_articles_summary`
(the network interaction of that callee is modelled separately): iterate
`followers_df["username"]` in row order, append each summary's fields to
eight parallel lists, then assign the eight columns onto the DataFrame in
source order.  The second component is the sequence of usernames the
summary lookup was invoked on, in invocation order. -/
def update_followers_with_articles (summaryOf : String → ArticleSummary)
    (df : Df) : Df × List String :=
  let summaries := df.rows.map (fun r => summaryOf r.username)
  (((((((((df.setCol "article_count"
      (summaries.map (fun s => Cell.n s.article_count))).setCol "article_titles"
      (summaries.map (fun s => Cell.ls s.article_titles))).setCol "unique_tags"
      (summaries.map (fun s => Cell.fs s.unique_tags))).setCol "tags"
      (summaries.map (fun s => Cell.lls s.tags))).setCol
      "article_reading_time_minutes"
      (summaries.map (fun s => Cell.li s.article_reading_time_minutes))).setCol
      "article_comments_counts"
      (summaries.map (fun s => Cell.li s.article_comments_counts))).setCol
      "article_positive_reactions_counts"
      (summaries.map (fun s => Cell.li s.article_positive_reactions_counts))).setCol
      "article_published_at"
      (summaries.map (fun s => Cell.ls s.article_published_at))),
    df.rows.map (fun r => r.username))

/-- State of the caller's DataFrame object after
`update_followers_with_articles` returns: the function assigns the new
columns directly onto its argument (api_client.py lines 284-293, no
`.copy()`) and returns that same object, so the post-call state of the
argument equals the returned DataFrame. -/
def update_followers_with_articles_argAfter (summaryOf : String → ArticleSummary)
    (df : Df) : Df :=
  (update_followers_with_articles summaryOf df).1

/-- `update_followers_with_stats` (api_client.py lines 349-394), abstracted
over the per-username result of `get_user_stats`: reading
`followers_df["article_titles"]` raises `KeyError` (modelled `none`) when
that column is absent; otherwise `zip(usernames, article_titles)` drives
one stats lookup per zipped pair and the four result columns are assigned
onto the DataFrame in source order. -/
def update_followers_with_stats (statsOf : String → UserStats) (df : Df) :
    Option Df :=
  match df.getCol "article_titles" with
  | none => none
  | some titlesCol =>
    let stats := ((df.rows.map (fun r => r.username)).zip titlesCol).map
      (fun p => statsOf p.1)
    some (((((df.setCol "badges"
      (stats.map (fun s => Cell.ls s.badges))).setCol "badge_descriptions"
      (stats.map (fun s => Cell.ls s.badge_descriptions))).setCol
      "comments_count"
      (stats.map (fun s => Cell.n s.comment_count))).setCol "tags_count"
      (stats.map (fun s => Cell.n s.tags_count))))

/-- State of the caller's DataFrame object after
`update_followers_with_stats` returns: the function assigns the new columns
directly onto its argument (api_client.py lines 389-392, no `.copy()`) and
returns that same object; when the initial column read raises `KeyError`,
no assignment has happened yet and the argument is unchanged. -/
def update_followers_with_stats_argAfter (statsOf : String → UserStats)
    (df : Df) : Df :=
  match update_followers_with_stats statsOf df with
  | some out => out
  | none => df

/-- A JSON scalar in the GitHub user payload. -/
inductive GhVal : Type where
  | s (v : String)
  | i (v : Int)
deriving DecidableEq, Repr

/-- The GitHub user payload, as the ordered key-value dict `response.json()`
decodes to; `get_github_user` returns it unchanged on HTTP 200 and the
caller reads selected keys with `.get`. -/
def GhPayload : Type := List (String × GhVal)

instance : DecidableEq GhPayload := by
  unfold GhPayload
  infer_instance

/-- `payload.get(key)`: `none` on an absent key. -/
def payloadGet (p : GhPayload) (k : String) : Option GhVal :=
  (p.find? (fun e => e.1 = k)).map (fun e => e.2)

/-- `get_github_user` (github_client.py lines 16-52), before the backoff
decorator: the `while True` loop issues one request per scripted event;
200 returns the payload, 404 returns `None`, 429 sleeps 60 seconds and
retries, any other status logs and returns `None`.  The second component
collects the durations of the sleeps performed, in order. -/
def get_github_user :
    List (TransportEvent GhPayload) →
    Option (Except PyError (Option GhPayload) × List Nat)
  | [] => none
  | TransportEvent.exn m :: _ =>
    some (Except.error (PyError.requestException (RequestException.transport m)), [])
  | TransportEvent.resp status _ body :: rest =>
    if status = 200 then
      some (Except.ok (some body), [])
    else if status = 404 then
      some (Except.ok none, [])
    else if status = 429 then
      (get_github_user rest).map (fun r => (r.1, 60 :: r.2))
    else
      some (Except.ok none, [])

/-- One row of the followers DataFrame passed to `update_with_github`,
restricted to the fields it reads: the `category` cell and the
`github_username` cell (`none` models a pandas `NaN`/`None`, on which
`.notna()` is false; note that the empty string is `.notna()`). -/
structure GhRow : Type where
  username : String
  category : String
  github_username : Option String
deriving DecidableEq, Repr

/-- One row of the DataFrame returned by `update_with_github`: a surviving
input row plus the three added GitHub columns (initialized `None`,
github_client.py lines 89-91). -/
structure GhOutRow : Type where
  base : GhRow
  github_created_at : Option GhVal
  github_updated_at : Option GhVal
  github_public_repos : Option GhVal
deriving DecidableEq, Repr

/-- The loop body of `update_with_github` (github_client.py lines 93-102),
abstracted over the per-username result of `get_github_user`: when the
lookup result is truthy (a non-empty dict), the three cells are set from
its keys; a `None` or empty-dict result leaves them `None`.  (After the
filter `github_username` is always present; the `none` branch is
unreachable.) -/
def github_enrich_row (lookup : String → Option GhPayload) (r : GhRow) :
    GhOutRow :=
  match r.github_username with
  | some u =>
    match lookup u with
    | some p =>
      if p.isEmpty then ⟨r, none, none, none⟩
      else
        ⟨r, payloadGet p "created_at", payloadGet p "updated_at",
          payloadGet p "public_repos"⟩
    | none => ⟨r, none, none, none⟩
  | none => ⟨r, none, none, none⟩

/-- `update_with_github` (github_client.py lines 55-104), abstracted over
the per-username result of `get_github_user`: filter the rows — on
`filter_connected_profiles` to those with `category == "Connected Profiles"`
and a non-NaN `github_username`, otherwise to those with a non-NaN
`github_username` — into a `.copy()`, then enrich each surviving row. -/
def update_with_github (lookup : String → Option GhPayload)
    (followers_df : List GhRow) (filter_connected_profiles : Bool) :
    List GhOutRow :=
  let github_users :=
    if filter_connected_profiles then
      followers_df.filter
        (fun r => decide (r.category = "Connected Profiles") &&
          r.github_username.isSome)
    else
      followers_df.filter (fun r => r.github_username.isSome)
  github_users.map (github_enrich_row lookup)

/-- State of the caller's DataFrame object after `update_with_github`
returns: the function works on a `.copy()` of the filtered selection
(github_client.py line 84), so the argument is unchanged. -/
def update_with_github_argAfter (lookup : String → Option GhPayload)
    (followers_df : List GhRow) (filter_connected_profiles : Bool) :
    List GhRow :=
  followers_df

/-- Helper: a run of successful, non-empty pages is consumed by the
articles pagination loop, accumulating the pages' rows in order. -/
theorem articlesLoop_pages (pages : List (List MyArticle)) (t : String)
    (rest : List (TransportEvent (List MyArticle))) (acc : List ArticleRow)
    (h : ∀ p ∈ pages, p ≠ []) :
    articlesLoop (pages.map (fun p => TransportEvent.resp 200 t p) ++ rest) acc =
      articlesLoop rest (acc ++ (pages.map (fun p => p.map articleToRow)).flatten) := by
  induction pages generalizing acc with
  | nil => simp
  | cons p ps ih =>
    have hp : p ≠ [] := h p (List.mem_cons_self _ _)
    have hps : ∀ q ∈ ps, q ≠ [] := fun q hq => h q (List.mem_cons_of_mem _ hq)
    simp only [List.map_cons, List.cons_append, articlesLoop]
    rw [if_neg (by simp), if_neg hp]
    simp only [List.append_eq]
    rw [ih _ hps]
    simp [List.append_assoc]

/-- Helper: a run of successful, non-empty pages is consumed by the
followers pagination loop, accumulating the pages' items in order. -/
theorem followersLoop_pages (pages : List (List FollowerRow)) (t : String)
    (rest : List (TransportEvent (List FollowerRow))) (acc : List FollowerRow)
    (h : ∀ p ∈ pages, p ≠ []) :
    followersLoop (pages.map (fun p => TransportEvent.resp 200 t p) ++ rest) acc =
      followersLoop rest (acc ++ pages.flatten) := by
  induction pages generalizing acc with
  | nil => simp
  | cons p ps ih =>
    have hp : p ≠ [] := h p (List.mem_cons_self _ _)
    have hps : ∀ q ∈ ps, q ≠ [] := fun q hq => h q (List.mem_cons_of_mem _ hq)
    simp only [List.map_cons, List.cons_append, followersLoop]
    rw [if_neg (by simp), if_neg hp]
    simp only [List.append_eq]
    rw [ih _ hps]
    simp [List.append_assoc]

/-- Claim C2: for every paginated collector (`load_articles_to_dataframe`,
`load_followers_to_dataframe`), if the endpoint serves successful pages of
sizes s1..sk followed by an empty page, the collected result has exactly
sum(s1..sk) rows, ordered first by page index and then by item position
within each page (it is the concatenation of the pages in request order),
and no failure is logged. -/
theorem paginated_collectors_collect_all_pages
    (apages : List (List MyArticle)) (fpages : List (List FollowerRow))
    (t : String)
    (ha : ∀ p ∈ apages, p ≠ []) (hf : ∀ p ∈ fpages, p ≠ []) :
    load_articles_to_dataframe
        (apages.map (fun p => TransportEvent.resp 200 t p) ++
          [TransportEvent.resp 200 t []]) =
      some (Except.ok ((apages.map (fun p => p.map articleToRow)).flatten, [])) ∧
    ((apages.map (fun p => p.map articleToRow)).flatten).length =
      (apages.map List.length).sum ∧
    load_followers_to_dataframe
        (fpages.map (fun p => TransportEvent.resp 200 t p) ++
          [TransportEvent.resp 200 t []]) =
      some (Except.ok (fpages.flatten, [])) ∧
    fpages.flatten.length = (fpages.map List.length).sum := by
  refine ⟨?_, ?_, ?_, ?_⟩
  · rw [load_articles_to_dataframe, articlesLoop_pages _ _ _ _ ha]
    simp [articlesLoop]
  · simp [List.length_flatten, List.map_map, Function.comp_def, List.length_map]
  · rw [load_followers_to_dataframe, followersLoop_pages _ _ _ _ hf]
    simp [followersLoop]
  · simp [List.length_flatten]

/-- Witness for claim C2 at a concrete input: two article pages of sizes 1
and 2 and one follower page of size 1, each followed by an empty page. -/
theorem paginated_collectors_collect_all_pages_witness :
    load_articles_to_dataframe
        [TransportEvent.resp 200 "" [⟨"t1", "d1", 1⟩],
          TransportEvent.resp 200 "" [⟨"t2", "d2", 2⟩, ⟨"t3", "d3", 3⟩],
          TransportEvent.resp 200 "" []] =
      some (Except.ok
        ([⟨"t1", "d1", 1⟩, ⟨"t2", "d2", 2⟩, ⟨"t3", "d3", 3⟩], [])) ∧
    ([(⟨"t1", "d1", 1⟩ : ArticleRow), ⟨"t2", "d2", 2⟩, ⟨"t3", "d3", 3⟩]).length =
      ([[(⟨"t1", "d1", 1⟩ : MyArticle)], [⟨"t2", "d2", 2⟩, ⟨"t3", "d3", 3⟩]].map
        List.length).sum ∧
    load_followers_to_dataframe
        [TransportEvent.resp 200 "" [⟨"u1", "n1"⟩],
          TransportEvent.resp 200 "" []] =
      some (Except.ok ([⟨"u1", "n1"⟩], [])) ∧
    ([(⟨"u1", "n1"⟩ : FollowerRow)]).length =
      ([[(⟨"u1", "n1"⟩ : FollowerRow)]].map List.length).sum :=
  paginated_collectors_collect_all_pages
    [[⟨"t1", "d1", 1⟩], [⟨"t2", "d2", 2⟩, ⟨"t3", "d3", 3⟩]] [[⟨"u1", "n1"⟩]] ""
    (by decide) (by decide)

/-- Claim C8: for every paginated collector, a page request answered with a
non-success, non-rate-limit status after k successfully collected pages
makes the collector log the status and body and return the rows of those k
pages as a normal (partial) result rather than raising an error. -/
theorem paginated_collectors_partial_on_error
    (apages : List (List MyArticle)) (fpages : List (List FollowerRow))
    (t terr : String) (s : Nat)
    (abody : List MyArticle) (fbody : List FollowerRow)
    (ha : ∀ p ∈ apages, p ≠ []) (hf : ∀ p ∈ fpages, p ≠ [])
    (hs : s ≠ 200) (hs429 : s ≠ 429) :
    load_articles_to_dataframe
        (apages.map (fun p => TransportEvent.resp 200 t p) ++
          [TransportEvent.resp s terr abody]) =
      some (Except.ok ((apages.map (fun p => p.map articleToRow)).flatten,
        ["Failed to load articles: " ++ toString s ++ " - " ++ terr])) ∧
    load_followers_to_dataframe
        (fpages.map (fun p => TransportEvent.resp 200 t p) ++
          [TransportEvent.resp s terr fbody]) =
      some (Except.ok (fpages.flatten,
        ["Failed to load followers: " ++ toString s ++ " - " ++ terr])) := by
  constructor
  · rw [load_articles_to_dataframe, articlesLoop_pages _ _ _ _ ha]
    simp [articlesLoop, hs]
  · rw [load_followers_to_dataframe, followersLoop_pages _ _ _ _ hf]
    simp [followersLoop, hs]

/-- Witness for claim C8 at a concrete input: one successful article page
and one successful follower page, then a 500 response. -/
theorem paginated_collectors_partial_on_error_witness :
    load_articles_to_dataframe
        [TransportEvent.resp 200 "" [⟨"t1", "d1", 1⟩],
          TransportEvent.resp 500 "boom" []] =
      some (Except.ok ([⟨"t1", "d1", 1⟩],
        ["Failed to load articles: " ++ toString 500 ++ " - " ++ "boom"])) ∧
    load_followers_to_dataframe
        [TransportEvent.resp 200 "" [⟨"u1", "n1"⟩],
          TransportEvent.resp 500 "boom" []] =
      some (Except.ok ([⟨"u1", "n1"⟩],
        ["Failed to load followers: " ++ toString 500 ++ " - " ++ "boom"])) :=
  paginated_collectors_partial_on_error [[⟨"t1", "d1", 1⟩]] [[⟨"u1", "n1"⟩]]
    "" "boom" 500 [] [] (by decide) (by decide) (by decide) (by decide)

/-- Claim C5: for every routine wrapped by the retry wrapper, if the
transport layer raises an exception on every attempt, the call makes
exactly 5 attempts (never fewer) and then the exception (that of the last
attempt) propagates to the caller. -/
theorem retry_wrapper_five_attempts {A : Type}
    (f : Nat → Option (Except PyError A)) (m : Nat → String)
    (h : ∀ i, f i = some (Except.error (PyError.requestException
      (RequestException.transport (m i))))) :
    backoff_on_exception 5 f =
      some (Except.error (PyError.requestException
        (RequestException.transport (m 4))), 5) := by
  have e0 := h 0
  have e1 := h 1
  have e2 := h 2
  have e3 := h 3
  have e4 := h 4
  simp [backoff_on_exception, backoffGo, e0, e1, e2, e3, e4, retryableErr]

/-- Witness for claim C5 at a concrete attempt function that raises a
connection error on every attempt. -/
theorem retry_wrapper_five_attempts_witness :
    backoff_on_exception 5
        (fun _ => (some (Except.error (PyError.requestException
          (RequestException.transport "conn"))) : Option (Except PyError Unit))) =
      some (Except.error (PyError.requestException
        (RequestException.transport "conn")), 5) :=
  retry_wrapper_five_attempts _ (fun _ => "conn") (fun _ => rfl)

/-- Claim C7: for the rate-limit-aware per-entity lookups
(`get_user_details`, `get_github_user`), a response sequence [429, 429, 200]
yields exactly two fixed-interval sleeps (1 second each for the dev.to API,
60 seconds each for GitHub) and then the 200 payload's normalized fields
(for GitHub, the payload dict itself); and a 429 answer is retried
unconditionally, so while the endpoint keeps answering 429 the routine
never returns. -/
theorem rate_limit_lookup_sleeps (u t1 t2 t3 t4 t5 t6 : String)
    (b1 b2 d : UserJson) (rest : List (TransportEvent UserJson))
    (g1 g2 p : GhPayload) (grest : List (TransportEvent GhPayload)) :
    get_user_details u
        (TransportEvent.resp 429 t1 b1 :: TransportEvent.resp 429 t2 b2 ::
          TransportEvent.resp 200 t3 d :: rest) =
      some (Except.ok (some (normalizeUser d)), [1, 1]) ∧
    get_github_user
        (TransportEvent.resp 429 t4 g1 :: TransportEvent.resp 429 t5 g2 ::
          TransportEvent.resp 200 t6 p :: grest) =
      some (Except.ok (some p), [60, 60]) ∧
    (∀ n, get_user_details u
      (List.replicate n (TransportEvent.resp 429 t1 b1)) = none) ∧
    (∀ n, get_github_user
      (List.replicate n (TransportEvent.resp 429 t4 g1)) = none) := by
  refine ⟨?_, ?_, ?_, ?_⟩
  · simp [get_user_details]
  · simp [get_github_user]
  · intro n
    induction n with
    | zero => simp [get_user_details]
    | succ k ih => simp [List.replicate_succ, get_user_details, ih]
  · intro n
    induction n with
    | zero => simp [get_github_user]
    | succ k ih => simp [List.replicate_succ, get_github_user, ih]

/-- Helper: processing one article advances the accumulator state from
"processed `arts`" to "processed `arts ++ [a]`". -/
theorem pushArticle_accOfArts (arts : List ArticleJson) (a : ArticleJson) :
    pushArticle (accOfArts arts) a = accOfArts (arts ++ [a]) := by
  simp [pushArticle, accOfArts, tagsUnion, List.foldl_append]

/-- Helper: processing one page advances the accumulator state from
"processed `arts`" to "processed `arts ++ page`". -/
theorem pushPage_accOfArts (arts : List ArticleJson) (page : List ArticleJson) :
    pushPage (accOfArts arts) page = accOfArts (arts ++ page) := by
  induction page generalizing arts with
  | nil => simp [pushPage]
  | cons a as ih =>
    simp only [pushPage, List.foldl_cons]
    rw [pushArticle_accOfArts]
    have h := ih (arts ++ [a])
    simp only [pushPage] at h
    rw [h]
    simp

/-- Helper: the dict built on the `break` path from the state "processed
`arts`" is the summary determined by `arts`. -/
theorem finish_accOfArts (arts : List ArticleJson) :
    finishSummary (accOfArts arts) = summaryOfArticles arts := by
  simp [finishSummary, accOfArts, summaryOfArticles]

/-- Helper: every normal result of the article-summary loop, started from
any reachable accumulator state, is the summary determined by some article
list. -/
theorem summaryLoop_arts (events : List (TransportEvent (List ArticleJson))) :
    ∀ (arts : List ArticleJson) (res : ArticleSummary) (sl : List Nat),
      summaryLoop events (accOfArts arts) = some (Except.ok res, sl) →
      ∃ arts2, res = summaryOfArticles arts2 := by
  induction events with
  | nil =>
    intro arts res sl h
    simp [summaryLoop] at h
  | cons ev rest ih =>
    intro arts res sl h
    match ev with
    | TransportEvent.exn m => simp [summaryLoop] at h
    | TransportEvent.resp status text body =>
      by_cases h200 : status = 200
      · subst h200
        by_cases hb : body = []
        · subst hb
          simp [summaryLoop, finish_accOfArts] at h
          exact ⟨arts, h.1.symm⟩
        · rw [summaryLoop, if_pos rfl, if_neg hb, pushPage_accOfArts] at h
          exact ih (arts ++ body) res sl h
      · by_cases h429 : status = 429
        · subst h429
          rw [summaryLoop, if_neg h200, if_pos rfl] at h
          rw [Option.map_eq_some'] at h
          obtain ⟨r, hm, hf⟩ := h
          have h1 : r.1 = Except.ok res := congrArg Prod.fst hf
          refine ih arts res r.2 ?_
          rw [← h1]
          exact hm
        · rw [summaryLoop, if_neg h200, if_neg h429] at h
          refine ⟨[], ?_⟩
          have := congrArg Prod.fst (Option.some.inj h)
          have he : emptySummary = res := Except.ok.inj this
          rw [← he]
          rfl

/-- Claim C1: every result of `get_user_articles_summary` (for any username
and any scripted response sequence) is the summary of a single article
list: all parallel per-article lists have length equal to `article_count`,
index i of every list describes the same article, and `unique_tags` equals
(as a set) the deduplicated union of the per-article tag lists. -/
theorem get_user_articles_summary_parallel_lists (u : String)
    (events : List (TransportEvent (List ArticleJson)))
    (res : ArticleSummary) (sl : List Nat)
    (h : get_user_articles_summary u events = some (Except.ok res, sl)) :
    (∃ arts, res = summaryOfArticles arts) ∧
    res.article_titles.length = res.article_count ∧
    res.tags.length = res.article_count ∧
    res.article_reading_time_minutes.length = res.article_count ∧
    res.article_comments_counts.length = res.article_count ∧
    res.article_positive_reactions_counts.length = res.article_count ∧
    res.article_published_at.length = res.article_count ∧
    res.unique_tags = tagsUnion res.tags := by
  have h0 : summaryLoop events (accOfArts []) = some (Except.ok res, sl) := by
    have e : accOfArts [] = emptyAcc := rfl
    rw [e]
    exact h
  obtain ⟨arts, rfl⟩ := summaryLoop_arts events [] res sl h0
  exact ⟨⟨arts, rfl⟩, by simp [summaryOfArticles], by simp [summaryOfArticles],
    by simp [summaryOfArticles], by simp [summaryOfArticles],
    by simp [summaryOfArticles], by simp [summaryOfArticles], rfl⟩

/-- Witness for claim C1 at a concrete input: one page with one article
carrying two tags, then an empty page. -/
theorem get_user_articles_summary_parallel_lists_witness :
    (∃ arts, summaryOfArticles [⟨"T", ["x", "y"], 3, 1, 5, "2024"⟩] =
      summaryOfArticles arts) ∧
    (summaryOfArticles
      [(⟨"T", ["x", "y"], 3, 1, 5, "2024"⟩ : ArticleJson)]).article_titles.length =
      (summaryOfArticles [(⟨"T", ["x", "y"], 3, 1, 5, "2024"⟩ : ArticleJson)]).article_count ∧
    (summaryOfArticles
      [(⟨"T", ["x", "y"], 3, 1, 5, "2024"⟩ : ArticleJson)]).tags.length =
      (summaryOfArticles [(⟨"T", ["x", "y"], 3, 1, 5, "2024"⟩ : ArticleJson)]).article_count ∧
    (summaryOfArticles
      [(⟨"T", ["x", "y"], 3, 1, 5, "2024"⟩ : ArticleJson)]).article_reading_time_minutes.length =
      (summaryOfArticles [(⟨"T", ["x", "y"], 3, 1, 5, "2024"⟩ : ArticleJson)]).article_count ∧
    (summaryOfArticles
      [(⟨"T", ["x", "y"], 3, 1, 5, "2024"⟩ : ArticleJson)]).article_comments_counts.length =
      (summaryOfArticles [(⟨"T", ["x", "y"], 3, 1, 5, "2024"⟩ : ArticleJson)]).article_count ∧
    (summaryOfArticles
      [(⟨"T", ["x", "y"], 3, 1, 5, "2024"⟩ : ArticleJson)]).article_positive_reactions_counts.length =
      (summaryOfArticles [(⟨"T", ["x", "y"], 3, 1, 5, "2024"⟩ : ArticleJson)]).article_count ∧
    (summaryOfArticles
      [(⟨"T", ["x", "y"], 3, 1, 5, "2024"⟩ : ArticleJson)]).article_published_at.length =
      (summaryOfArticles [(⟨"T", ["x", "y"], 3, 1, 5, "2024"⟩ : ArticleJson)]).article_count ∧
    (summaryOfArticles
      [(⟨"T", ["x", "y"], 3, 1, 5, "2024"⟩ : ArticleJson)]).unique_tags =
      tagsUnion (summaryOfArticles [(⟨"T", ["x", "y"], 3, 1, 5, "2024"⟩ : ArticleJson)]).tags :=
  get_user_articles_summary_parallel_lists "u"
    [TransportEvent.resp 200 "" [⟨"T", ["x", "y"], 3, 1, 5, "2024"⟩],
      TransportEvent.resp 200 "" []]
    (summaryOfArticles [⟨"T", ["x", "y"], 3, 1, 5, "2024"⟩]) [] rfl

/-- Helper: looking up a column just assigned returns the assigned values. -/
theorem getColA_setColA_self (l : List (String × List Cell)) (n : String)
    (v : List Cell) : getColA (setColA l n v) n = some v := by
  induction l with
  | nil => simp [setColA, getColA]
  | cons e rest ih =>
    obtain ⟨a, b⟩ := e
    by_cases ha : a = n
    · subst ha
      simp [setColA, getColA]
    · simp [setColA, getColA, ha, ih]

/-- Helper: assigning one column leaves the others unchanged. -/
theorem getColA_setColA_ne (l : List (String × List Cell)) (n m : String)
    (v : List Cell) (h : n ≠ m) : getColA (setColA l n v) m = getColA l m := by
  induction l with
  | nil => simp [setColA, getColA, h]
  | cons e rest ih =>
    obtain ⟨a, b⟩ := e
    by_cases ha : a = n
    · subst ha
      simp [setColA, getColA, h]
    · simp [setColA, getColA, ha, ih]

/-- Claim C3: `update_followers_with_articles` invokes the per-row
article-summary lookup once per row in table order, keeps the base rows,
and appends the eight result columns aligned by row index (each column is
the field map over the rows' summaries in row order); in particular, for a
3-row table whose rows' summaries report article counts 2, 0, 5, the
resulting `article_count` column is exactly [2, 0, 5] in input row order. -/
theorem update_followers_with_articles_aligned
    (summaryOf : String → ArticleSummary) (df : Df) :
    (update_followers_with_articles summaryOf df).2 =
      df.rows.map (fun r => r.username) ∧
    (update_followers_with_articles summaryOf df).1.rows = df.rows ∧
    (update_followers_with_articles summaryOf df).1.getCol "article_count" =
      some (df.rows.map (fun r => Cell.n (summaryOf r.username).article_count)) ∧
    (update_followers_with_articles summaryOf df).1.getCol "article_titles" =
      some (df.rows.map (fun r => Cell.ls (summaryOf r.username).article_titles)) ∧
    (update_followers_with_articles summaryOf df).1.getCol "unique_tags" =
      some (df.rows.map (fun r => Cell.fs (summaryOf r.username).unique_tags)) ∧
    (update_followers_with_articles summaryOf df).1.getCol "tags" =
      some (df.rows.map (fun r => Cell.lls (summaryOf r.username).tags)) ∧
    (update_followers_with_articles summaryOf df).1.getCol
        "article_reading_time_minutes" =
      some (df.rows.map
        (fun r => Cell.li (summaryOf r.username).article_reading_time_minutes)) ∧
    (update_followers_with_articles summaryOf df).1.getCol
        "article_comments_counts" =
      some (df.rows.map
        (fun r => Cell.li (summaryOf r.username).article_comments_counts)) ∧
    (update_followers_with_articles summaryOf df).1.getCol
        "article_positive_reactions_counts" =
      some (df.rows.map
        (fun r => Cell.li (summaryOf r.username).article_positive_reactions_counts)) ∧
    (update_followers_with_articles summaryOf df).1.getCol
        "article_published_at" =
      some (df.rows.map
        (fun r => Cell.ls (summaryOf r.username).article_published_at)) ∧
    (update_followers_with_articles
        (fun u => if u = "a" then ⟨2, [], ∅, [], [], [], [], []⟩
          else if u = "b" then ⟨0, [], ∅, [], [], [], [], []⟩
          else ⟨5, [], ∅, [], [], [], [], []⟩)
        ⟨[⟨"a", "na"⟩, ⟨"b", "nb"⟩, ⟨"c", "nc"⟩], []⟩).1.getCol "article_count" =
      some [Cell.n 2, Cell.n 0, Cell.n 5] := by
  refine ⟨rfl, rfl, ?_, ?_, ?_, ?_, ?_, ?_, ?_, ?_, rfl⟩ <;>
    simp [update_followers_with_articles, Df.getCol, Df.setCol,
      getColA_setColA_self, getColA_setColA_ne, List.map_map, Function.comp_def]

/-- Counterexample to claim C9: `update_followers_with_articles` does not
leave the caller's original input table unchanged — on a one-row table with
no extra columns, the caller's DataFrame object differs from the original
after the call (it has gained the eight article columns), because the
function assigns the columns onto its argument without copying. -/
theorem update_followers_mutates_input :
    update_followers_with_articles_argAfter (fun _ => emptySummary)
        ⟨[⟨"alice", "A"⟩], []⟩ ≠ (⟨[⟨"alice", "A"⟩], []⟩ : Df) := by
  intro h
  have h2 := congrArg (fun d => d.extra.map Prod.fst) h
  simp [update_followers_with_articles_argAfter, update_followers_with_articles,
    Df.setCol, setColA] at h2

/-- Claim C9 amended: `update_followers_with_articles` and
`update_followers_with_stats` do not copy the base table into a new table;
they assign the new columns directly onto the caller's DataFrame and return
that same object, so after the call the caller's original table is the
enriched table — base rows unchanged, enrichment columns added — rather
than an unchanged original. -/
theorem enrichment_updates_in_place
    (summaryOf : String → ArticleSummary) (statsOf : String → UserStats)
    (dfA dfS : Df) (out : Df)
    (h : update_followers_with_stats statsOf dfS = some out) :
    update_followers_with_articles_argAfter summaryOf dfA =
      (update_followers_with_articles summaryOf dfA).1 ∧
    (update_followers_with_articles_argAfter summaryOf dfA).rows = dfA.rows ∧
    (update_followers_with_articles_argAfter summaryOf dfA).getCol
        "article_count" =
      some (dfA.rows.map (fun r => Cell.n (summaryOf r.username).article_count)) ∧
    update_followers_with_stats_argAfter statsOf dfS = out ∧
    out.rows = dfS.rows ∧
    (∃ vals, out.getCol "tags_count" = some vals) := by
  refine ⟨rfl, rfl, ?_, ?_, ?_, ?_⟩
  · simp [update_followers_with_articles_argAfter,
      update_followers_with_articles, Df.getCol, Df.setCol,
      getColA_setColA_self, getColA_setColA_ne, List.map_map, Function.comp_def]
  · rw [update_followers_with_stats_argAfter, h]
  · rw [update_followers_with_stats] at h
    cases hm : dfS.getCol "article_titles" with
    | none => rw [hm] at h; exact absurd h (by simp)
    | some titlesCol =>
      rw [hm] at h
      have := Option.some.inj h
      rw [← this]
      rfl
  · rw [update_followers_with_stats] at h
    cases hm : dfS.getCol "article_titles" with
    | none => rw [hm] at h; exact absurd h (by simp)
    | some titlesCol =>
      rw [hm] at h
      have := Option.some.inj h
      rw [← this]
      exact ⟨_, getColA_setColA_self _ _ _⟩

/-- Witness for the amended claim C9 at a concrete input: a one-row base
table with no extra columns for the articles routine, and a one-row table
with an `article_titles` column for the stats routine. -/
theorem enrichment_updates_in_place_witness :
    update_followers_with_articles_argAfter (fun _ => emptySummary)
        ⟨[⟨"a", "n"⟩], []⟩ =
      (update_followers_with_articles (fun _ => emptySummary)
        ⟨[⟨"a", "n"⟩], []⟩).1 ∧
    (update_followers_with_articles_argAfter (fun _ => emptySummary)
        ⟨[⟨"a", "n"⟩], []⟩).rows = (⟨[⟨"a", "n"⟩], []⟩ : Df).rows ∧
    (update_followers_with_articles_argAfter (fun _ => emptySummary)
        ⟨[⟨"a", "n"⟩], []⟩).getCol "article_count" =
      some ((⟨[⟨"a", "n"⟩], []⟩ : Df).rows.map
        (fun r => Cell.n ((fun _ => emptySummary) r.username).article_count)) ∧
    update_followers_with_stats_argAfter (fun _ => ⟨[], [], 0, 0⟩)
        ⟨[⟨"a", "n"⟩], [("article_titles", [Cell.ls []])]⟩ =
      ⟨[⟨"a", "n"⟩],
        [("article_titles", [Cell.ls []]), ("badges", [Cell.ls []]),
          ("badge_descriptions", [Cell.ls []]), ("comments_count", [Cell.n 0]),
          ("tags_count", [Cell.n 0])]⟩ ∧
    (⟨[⟨"a", "n"⟩],
        [("article_titles", [Cell.ls []]), ("badges", [Cell.ls []]),
          ("badge_descriptions", [Cell.ls []]), ("comments_count", [Cell.n 0]),
          ("tags_count", [Cell.n 0])]⟩ : Df).rows =
      (⟨[⟨"a", "n"⟩], [("article_titles", [Cell.ls []])]⟩ : Df).rows ∧
    (∃ vals, (⟨[⟨"a", "n"⟩],
        [("article_titles", [Cell.ls []]), ("badges", [Cell.ls []]),
          ("badge_descriptions", [Cell.ls []]), ("comments_count", [Cell.n 0]),
          ("tags_count", [Cell.n 0])]⟩ : Df).getCol "tags_count" = some vals) :=
  enrichment_updates_in_place (fun _ => emptySummary) (fun _ => ⟨[], [], 0, 0⟩)
    ⟨[⟨"a", "n"⟩], []⟩ ⟨[⟨"a", "n"⟩], [("article_titles", [Cell.ls []])]⟩
    ⟨[⟨"a", "n"⟩],
      [("article_titles", [Cell.ls []]), ("badges", [Cell.ls []]),
        ("badge_descriptions", [Cell.ls []]), ("comments_count", [Cell.n 0]),
        ("tags_count", [Cell.n 0])]⟩ rfl

/-- Helper: the row-enrichment step of `update_with_github` never changes
the base row it decorates. -/
theorem github_enrich_row_base (lookup : String → Option GhPayload) (r : GhRow) :
    (github_enrich_row lookup r).base = r := by
  rcases hg : r.github_username with _ | u <;> simp [github_enrich_row, hg]
  rcases hl : lookup u with _ | p <;> simp [hl]
  by_cases hp : p = [] <;> simp [hp]

/-- Counterexample to claim C4: with `filter_connected_profiles=True`, a
row whose `category` is "Connected Profiles" but whose GitHub handle is the
empty string (present but empty) is NOT excluded — `.notna()` is true for
the empty string, so the row survives the filter and appears in the
output, contradicting the claim that only rows with a non-empty handle are
returned. -/
theorem update_with_github_empty_handle_included :
    update_with_github (fun _ => none)
        [⟨"u", "Connected Profiles", some ""⟩] true =
      [⟨⟨"u", "Connected Profiles", some ""⟩, none, none, none⟩] := by
  rfl

/-- Claim C4 amended: `update_with_github` with
`filter_connected_profiles=True` returns exactly those input rows (in input
order) whose `category` equals "Connected Profiles" and whose
`github_username` is not null (`.notna()`); all other rows are excluded
from the output entirely.  An empty-string handle counts as present — the
code does not test for non-emptiness. -/
theorem update_with_github_filter_exact (lookup : String → Option GhPayload)
    (followers_df : List GhRow) :
    (update_with_github lookup followers_df true).map (fun r => r.base) =
      followers_df.filter
        (fun r => decide (r.category = "Connected Profiles") &&
          r.github_username.isSome) := by
  simp [update_with_github, List.map_map, Function.comp_def,
    github_enrich_row_base]

/-- Claim C10: in `update_with_github`, a row that passes the filter but
whose per-user GitHub lookup returns no data is still present in the
returned table with its three GitHub columns left null; and
`get_github_user` indeed returns no data on any non-200, non-429 status
(404 included). -/
theorem update_with_github_failed_lookup_keeps_row
    (s : Nat) (t : String) (p : GhPayload)
    (rest : List (TransportEvent GhPayload))
    (hs : s ≠ 200) (h429 : s ≠ 429)
    (lookup : String → Option GhPayload) (followers_df : List GhRow)
    (r : GhRow) (u : String)
    (hr : r ∈ followers_df) (hc : r.category = "Connected Profiles")
    (hu : r.github_username = some u) (hl : lookup u = none) :
    get_github_user (TransportEvent.resp s t p :: rest) =
      some (Except.ok none, []) ∧
    GhOutRow.mk r none none none ∈ update_with_github lookup followers_df true := by
  constructor
  · by_cases h404 : s = 404
    · subst h404
      simp [get_github_user]
    · simp [get_github_user, hs, h429, h404]
  · have he : update_with_github lookup followers_df true =
        (followers_df.filter
          (fun r => decide (r.category = "Connected Profiles") &&
            r.github_username.isSome)).map (github_enrich_row lookup) := rfl
    rw [he]
    refine List.mem_map.mpr ⟨r, List.mem_filter.mpr ⟨hr, ?_⟩, ?_⟩
    · simp [hc, hu]
    · simp [github_enrich_row, hu, hl]

/-- Witness for claim C10 at a concrete input: a 500 answer for the lookup,
and a one-row table whose row passes the filter but whose lookup yields no
data. -/
theorem update_with_github_failed_lookup_keeps_row_witness :
    get_github_user [TransportEvent.resp 500 "" []] =
      some (Except.ok none, []) ∧
    GhOutRow.mk ⟨"u", "Connected Profiles", some "gh"⟩ none none none ∈
      update_with_github (fun _ => none)
        [⟨"u", "Connected Profiles", some "gh"⟩] true :=
  update_with_github_failed_lookup_keeps_row 500 "" [] [] (by decide) (by decide)
    (fun _ => none) [⟨"u", "Connected Profiles", some "gh"⟩]
    ⟨"u", "Connected Profiles", some "gh"⟩ "gh"
    (List.mem_singleton.mpr rfl) rfl rfl rfl

/-- Counterexample to claim C6: the claim says a non-success HTTP status
received successfully never causes the wrapper to re-issue the request, but
`get_user_stats` calls `raise_for_status()`, whose `HTTPError` is a
`RequestException` and is therefore retried by the backoff wrapper: with
every request answered by a received 500 response, the wrapped call issues
5 requests, not 1. -/
theorem wrapped_get_user_stats_retries_on_status :
    get_user_stats_wrapped (fun _ => TransportEvent.resp 500 "" ⟨[], [], []⟩) =
      some (Except.error (PyError.requestException
        (RequestException.httpError 500)), 5) ∧
    (5 : Nat) ≠ 1 := by
  exact ⟨rfl, by decide⟩

/-- Helper: the articles pagination loop never raises unless a transport
event is an exception — a non-success status makes it return normally. -/
theorem articlesLoop_no_exn_ok
    (events : List (TransportEvent (List MyArticle))) :
    ∀ (acc : List ArticleRow) (res : Except PyError (List ArticleRow × List String)),
      (∀ m, TransportEvent.exn m ∉ events) →
      articlesLoop events acc = some res → ∃ v, res = Except.ok v := by
  induction events with
  | nil =>
    intro acc res hne h
    exact absurd h (by simp [articlesLoop])
  | cons ev rest ih =>
    intro acc res hne h
    match ev with
    | TransportEvent.exn m => exact absurd (List.mem_cons_self _ _) (hne m)
    | TransportEvent.resp status text body =>
      by_cases hs : status = 200
      · subst hs
        by_cases hb : body = []
        · subst hb
          rw [articlesLoop, if_neg (by simp), if_pos rfl] at h
          exact ⟨_, (Option.some.inj h).symm⟩
        · rw [articlesLoop, if_neg (by simp), if_neg hb] at h
          exact ih _ _ (fun m hm => hne m (List.mem_cons_of_mem _ hm)) h
      · rw [articlesLoop, if_pos hs] at h
        exact ⟨_, (Option.some.inj h).symm⟩

/-- Claim C6 amended: the retry wrapper retries only when the wrapped
routine raises a `RequestException`.  The JSON routines never raise on an
HTTP error status — they return a partial/empty result instead — so for
them an error status causes no re-issue and the wrapped call makes exactly
one attempt; but `get_user_stats` turns a received 4xx/5xx status into an
`HTTPError` via `raise_for_status()`, which is a `RequestException`, so
for the HTML scraper the wrapper does re-issue the request, up to the cap
of 5 attempts. -/
theorem retry_on_status_behavior
    (aoracle : Nat → List (TransportEvent (List MyArticle)))
    (foracle : Nat → List (TransportEvent (List FollowerRow)))
    (x : List ArticleRow × List String) (y : List FollowerRow × List String)
    (hx : load_articles_to_dataframe (aoracle 0) = some (Except.ok x))
    (hy : load_followers_to_dataframe (foracle 0) = some (Except.ok y))
    (st : Nat → Nat) (tx : Nat → String) (pg : Nat → ProfilePage)
    (hst : ∀ i, 400 ≤ st i ∧ st i < 600) :
    load_articles_wrapped aoracle = some (Except.ok x, 1) ∧
    load_followers_wrapped foracle = some (Except.ok y, 1) ∧
    (∀ events acc res, (∀ m, TransportEvent.exn m ∉ events) →
      articlesLoop events acc = some res → ∃ v, res = Except.ok v) ∧
    get_user_stats_wrapped (fun i => TransportEvent.resp (st i) (tx i) (pg i)) =
      some (Except.error (PyError.requestException
        (RequestException.httpError (st 4))), 5) := by
  refine ⟨?_, ?_, fun events => articlesLoop_no_exn_ok events, ?_⟩
  · simp [load_articles_wrapped, backoff_on_exception, backoffGo, hx]
  · simp [load_followers_wrapped, backoff_on_exception, backoffGo, hy]
  · have he : ∀ i, get_user_stats (TransportEvent.resp (st i) (tx i) (pg i)) =
        Except.error (PyError.requestException
          (RequestException.httpError (st i))) := by
      intro i
      rw [get_user_stats, if_pos (hst i)]
    have e0 := he 0
    have e1 := he 1
    have e2 := he 2
    have e3 := he 3
    have e4 := he 4
    simp [get_user_stats_wrapped, backoff_on_exception, backoffGo,
      e0, e1, e2, e3, e4, retryableErr]

/-- Witness for the amended claim C6 at concrete inputs: a collector whose
first attempt sees one empty 200 page (one attempt, no retry) and a
scraper whose every request is answered 500 (five attempts). -/
theorem retry_on_status_behavior_witness :
    load_articles_wrapped (fun _ => [TransportEvent.resp 200 "" []]) =
      some (Except.ok ([], []), 1) ∧
    load_followers_wrapped (fun _ => [TransportEvent.resp 200 "" []]) =
      some (Except.ok ([], []), 1) ∧
    (∀ events acc res, (∀ m, TransportEvent.exn m ∉ events) →
      articlesLoop events acc = some res → ∃ v, res = Except.ok v) ∧
    get_user_stats_wrapped
        (fun i => TransportEvent.resp ((fun _ => 500) i) ((fun _ => "") i)
          ((fun _ => (⟨[], [], []⟩ : ProfilePage)) i)) =
      some (Except.error (PyError.requestException
        (RequestException.httpError ((fun _ => 500) 4))), 5) :=
  retry_on_status_behavior (fun _ => [TransportEvent.resp 200 "" []])
    (fun _ => [TransportEvent.resp 200 "" []]) ([], []) ([], []) rfl rfl
    (fun _ => 500) (fun _ => "") (fun _ => ⟨[], [], []⟩)
    (fun _ => show (400 : Nat) ≤ 500 ∧ (500 : Nat) < 600 by decide)
